import Mathlib

/-!
Verification of the Celo vesting subsystem (VestingFactory + VestingInstance).

`VestingFactory.sol` is embedded from the source under
`src/packages/protocol/contracts/governance/VestingFactory.sol`.
`VestingInstance.sol` is not part of the source tree (only its tests and the
factory that instantiates it are), so the instance-level operations are
modelled from the specification, as marked on each definition.

Conventions of the embedding:
- addresses, timestamps and token amounts are `Nat` (Solidity `uint256` is
  unbounded here except where an explicit `2 ^ 256` overflow guard appears);
- a fallible operation returns `Option`; `none` models a reverted
  transaction, which by EVM semantics leaves every piece of state unchanged;
- token movements performed by an operation are returned as an explicit list
  of `(recipient, amount)` transfers.
-/

namespace Vesting

/-- One day in seconds, as in the test suite. -/
def DAY : Nat := 86400

/-- One month (30 days) in seconds, as in the test suite. -/
def MONTH : Nat := 30 * DAY

/-- Immutable vesting schedule fixed at construction
(`vestingSchedule` of VestingInstance, per the spec's data model). -/
structure VestingSchedule where
  beneficiary : Nat
  revoker : Nat
  numPeriods : Nat
  amountPerPeriod : Nat
  periodDurationSeconds : Nat
  startTime : Nat
  cliffDurationSeconds : Nat
  revocable : Bool
  maxPausePeriodSeconds : Nat
deriving DecidableEq

/-- Derived: the time at which the cliff ends. -/
def VestingSchedule.cliffStartTime (s : VestingSchedule) : Nat :=
  s.startTime + s.cliffDurationSeconds

/-- Derived: total amount to vest, `amountPerPeriod * numPeriods`. -/
def VestingSchedule.totalVestingAmount (s : VestingSchedule) : Nat :=
  s.amountPerPeriod * s.numPeriods

/-- Modelled from the spec: `getCurrentVestedTotalAmount` of the missing
`VestingInstance.sol` (`currentVestedTotal(now)` in the spec). Returns 0
before the cliff start; otherwise a step function: `amountPerPeriod` times
the number of whole periods elapsed since `startTime`, clamped to
`numPeriods` (the lower clamp to 0 is inherent to `Nat`). -/
def getCurrentVestedTotalAmount (s : VestingSchedule) (now : Nat) : Nat :=
  if now < s.cliffStartTime then 0
  else s.amountPerPeriod * min ((now - s.startTime) / s.periodDurationSeconds) s.numPeriods

/-- Mutable state of a vesting instance, including its token balance and its
position at the staking ledger (locked amount and pending unlocks as
`(value, maturityTime)` pairs). -/
structure VestingState where
  totalWithdrawn : Nat
  isRevoked : Bool
  revokeTime : Nat
  vestedBalanceAtRevoke : Nat
  pauseEndTime : Nat
  balance : Nat
  locked : Nat
  pendingWithdrawals : List (Nat × Nat)
  isAccount : Bool
  finalized : Bool
deriving DecidableEq

/-- Total value sitting in pending unlock entries. -/
def pendingTotal (st : VestingState) : Nat :=
  (st.pendingWithdrawals.map Prod.fst).sum

/-- Amount currently staked on the instance's behalf: locked gold plus all
pending unlock entries. -/
def stakedTotal (st : VestingState) : Nat :=
  st.locked + pendingTotal st

/-- State of a freshly created instance, funded with the full principal. -/
def initState (s : VestingSchedule) : VestingState :=
  { totalWithdrawn := 0
    isRevoked := false
    revokeTime := 0
    vestedBalanceAtRevoke := 0
    pauseEndTime := 0
    balance := s.totalVestingAmount
    locked := 0
    pendingWithdrawals := []
    isAccount := false
    finalized := false }

/-- The pause flag is a time window: paused exactly while `now < pauseEndTime`. -/
def isPaused (st : VestingState) (now : Nat) : Bool :=
  now < st.pauseEndTime

/-- Modelled from the spec: `withdrawableNow(now)` — the frozen snapshot once
revoked, the live vested total otherwise, minus what was already withdrawn. -/
def withdrawableNow (s : VestingSchedule) (st : VestingState) (now : Nat) : Nat :=
  (if st.isRevoked then st.vestedBalanceAtRevoke else getCurrentVestedTotalAmount s now)
    - st.totalWithdrawn

/-- A token transfer out of the instance: `(recipient, amount)`. -/
abbrev Transfer := Nat × Nat

/-- Modelled from the spec: the withdrawal ceiling used for the finalize
check — the frozen snapshot once revoked, the full principal otherwise. -/
def applicableCeiling (s : VestingSchedule) (st : VestingState) : Nat :=
  if st.isRevoked then st.vestedBalanceAtRevoke else s.totalVestingAmount

/-- Modelled from the spec: `withdraw(amount)` of the missing
`VestingInstance.sol`. Caller must be the beneficiary, the instance must not
be finalized or paused, `0 < amount ≤ withdrawableNow(now)` and the liquid
balance must cover the transfer; on success `totalWithdrawn` grows by
`amount`, `amount` is transferred to the beneficiary, and the instance
finalizes when the ceiling is reached with nothing left on the books. -/
def withdraw (s : VestingSchedule) (st : VestingState) (now caller amount : Nat) :
    Option (VestingState × List Transfer) :=
  if st.finalized then none
  else if caller ≠ s.beneficiary then none
  else if isPaused st now then none
  else if amount = 0 then none
  else if withdrawableNow s st now < amount then none
  else if st.balance < amount then none
  else
    let w := st.totalWithdrawn + amount
    let b := st.balance - amount
    some ({ st with
              totalWithdrawn := w
              balance := b
              finalized := decide (w = applicableCeiling s st ∧ b = 0 ∧ stakedTotal st = 0) },
          [(s.beneficiary, amount)])

/-- Modelled from the spec: `pause(durationSeconds)` of the missing
`VestingInstance.sol`. Revoker-only, revocable-only, forbidden once revoked
or while a previous pause window has not elapsed, and bounded by
`maxPausePeriodSeconds`. -/
def pause (s : VestingSchedule) (st : VestingState) (now caller duration : Nat) :
    Option VestingState :=
  if st.finalized then none
  else if caller ≠ s.revoker then none
  else if ¬ s.revocable then none
  else if st.isRevoked then none
  else if isPaused st now then none
  else if s.maxPausePeriodSeconds < duration then none
  else some { st with pauseEndTime := now + duration }

/-- Modelled from the spec: `revoke()` of the missing `VestingInstance.sol`.
Revoker-only, revocable-only, forbidden when already revoked or currently
paused; freezes the vested snapshot `vestedBalanceAtRevoke`. -/
def revoke (s : VestingSchedule) (st : VestingState) (now caller : Nat) :
    Option VestingState :=
  if st.finalized then none
  else if caller ≠ s.revoker then none
  else if ¬ s.revocable then none
  else if st.isRevoked then none
  else if isPaused st now then none
  else some { st with
                isRevoked := true
                revokeTime := now
                vestedBalanceAtRevoke := getCurrentVestedTotalAmount s now }

/-- Modelled from the spec: `refundAndFinalize()` of the missing
`VestingInstance.sol`. Revoker-only, only once revoked, only with zero staked
balance; pays the vested-but-unwithdrawn remainder to the beneficiary, the
rest of the liquid balance to the revoker, zeroes the balance and finalizes
(the transfer reverts if the balance cannot cover the beneficiary's share). -/
def refundAndFinalize (s : VestingSchedule) (st : VestingState) (_now caller : Nat) :
    Option (VestingState × List Transfer) :=
  if st.finalized then none
  else if caller ≠ s.revoker then none
  else if ¬ st.isRevoked then none
  else if stakedTotal st ≠ 0 then none
  else if st.balance < st.vestedBalanceAtRevoke - st.totalWithdrawn then none
  else
    some ({ st with balance := 0, finalized := true },
          [(s.beneficiary, st.vestedBalanceAtRevoke - st.totalWithdrawn),
           (s.revoker, st.balance - (st.vestedBalanceAtRevoke - st.totalWithdrawn))])

/-- Modelled from the spec: the payable fallback of the missing
`VestingInstance.sol` — a direct token transfer into the instance from any
sender at any time; it is never rejected (a total function). -/
def deposit (st : VestingState) (amount : Nat) : VestingState :=
  { st with balance := st.balance + amount }

/-- Responses of the external collaborators (StakingLedger / governance /
validator / signature checks) that the delegation operations consult. -/
structure Env where
  hasPendingGovernanceVote : Bool
  balanceRequirement : Nat
  unlockingPeriod : Nat
  signatureValid : Bool
  signerAvailable : Bool
deriving DecidableEq

/-- Modelled from the spec: the caller accepted by the delegation
operations — the beneficiary while unrevoked, the revoker once revoked. -/
def authorizedCaller (s : VestingSchedule) (st : VestingState) : Nat :=
  if st.isRevoked then s.revoker else s.beneficiary

/-- Modelled from the spec: `createAccount` of the missing
`VestingInstance.sol` — registers the instance at the IdentityRegistry. -/
def createAccount (s : VestingSchedule) (st : VestingState) (_now caller : Nat) :
    Option VestingState :=
  if st.finalized then none
  else if caller ≠ authorizedCaller s st then none
  else if st.isAccount then none
  else some { st with isAccount := true }

/-- Modelled from the spec: the `setAccountName` / `setAccountWalletAddress` /
`setAccountMetadataURL` / `setAccountDataEncryptionKey` family of the missing
`VestingInstance.sol` — pure pass-throughs to the IdentityRegistry, requiring
the instance to already be a registered identity; the forwarded metadata is
not tracked in this embedding. -/
def setAccountField (s : VestingSchedule) (st : VestingState) (_now caller : Nat) :
    Option VestingState :=
  if st.finalized then none
  else if caller ≠ authorizedCaller s st then none
  else if ¬ st.isAccount then none
  else some st

/-- Modelled from the spec: `authorizeVoteSigner` of the missing
`VestingInstance.sol` — requires a valid signature and a signer that is not
already a distinct identity or authorized elsewhere. -/
def authorizeVoteSigner (e : Env) (s : VestingSchedule) (st : VestingState)
    (_now caller : Nat) : Option VestingState :=
  if st.finalized then none
  else if caller ≠ authorizedCaller s st then none
  else if ¬ st.isAccount then none
  else if ¬ e.signatureValid then none
  else if ¬ e.signerAvailable then none
  else some st

/-- Modelled from the spec: `lockGold(amount)` of the missing
`VestingInstance.sol` — requires a registered identity and enough unlocked
liquid balance; moves the amount from the liquid balance into locked gold. -/
def lockGold (s : VestingSchedule) (st : VestingState) (_now caller amount : Nat) :
    Option VestingState :=
  if st.finalized then none
  else if caller ≠ authorizedCaller s st then none
  else if ¬ st.isAccount then none
  else if st.balance < amount then none
  else some { st with balance := st.balance - amount, locked := st.locked + amount }

/-- Modelled from the spec: `unlockGold(amount)` of the missing
`VestingInstance.sol` — rejected while a governance vote is outstanding or
while the unlock would break the collaborator-reported balance requirement;
moves the amount from locked gold into a pending unlock entry maturing after
the staking ledger's unlocking period. -/
def unlockGold (e : Env) (s : VestingSchedule) (st : VestingState)
    (now caller amount : Nat) : Option VestingState :=
  if st.finalized then none
  else if caller ≠ authorizedCaller s st then none
  else if e.hasPendingGovernanceVote then none
  else if st.locked < amount then none
  else if st.locked - amount < e.balanceRequirement then none
  else some { st with
                locked := st.locked - amount
                pendingWithdrawals := st.pendingWithdrawals ++ [(amount, now + e.unlockingPeriod)] }

/-- Modelled from the spec: `withdrawLockedGold(index)` of the missing
`VestingInstance.sol` — valid only once the referenced pending unlock has
matured; removes the entry and returns its value to the liquid balance. -/
def withdrawLockedGold (s : VestingSchedule) (st : VestingState)
    (now caller index : Nat) : Option VestingState :=
  if st.finalized then none
  else if caller ≠ authorizedCaller s st then none
  else
    match st.pendingWithdrawals[index]? with
    | none => none
    | some (value, maturity) =>
        if now < maturity then none
        else some { st with
                      balance := st.balance + value
                      pendingWithdrawals := st.pendingWithdrawals.eraseIdx index }

/-- Modelled from the spec: `relockGold(index, amount)` of the missing
`VestingInstance.sol` — the amount must not exceed the referenced pending
entry's remaining value; decrements or removes the entry and locks again. -/
def relockGold (s : VestingSchedule) (st : VestingState)
    (_now caller index amount : Nat) : Option VestingState :=
  if st.finalized then none
  else if caller ≠ authorizedCaller s st then none
  else
    match st.pendingWithdrawals[index]? with
    | none => none
    | some (value, maturity) =>
        if value < amount then none
        else
          let pend :=
            if value = amount then st.pendingWithdrawals.eraseIdx index
            else st.pendingWithdrawals.set index (value - amount, maturity)
          some { st with locked := st.locked + amount, pendingWithdrawals := pend }

/-- The accounting operations of a vesting instance. -/
inductive Op
  | withdraw (amount : Nat)
  | pause (duration : Nat)
  | revoke
  | refundAndFinalize
  | lockGold (amount : Nat)
  | unlockGold (amount : Nat)
  | relockGold (index amount : Nat)
  | withdrawLockedGold (index : Nat)
  | createAccount
  | setAccountField
  | authorizeVoteSigner
deriving DecidableEq

/-- The staking / identity delegation operations (the subset gated purely by
the beneficiary-unrevoked / revoker-revoked authorization rule). -/
def Op.isDelegation : Op → Bool
  | .lockGold _ => true
  | .unlockGold _ => true
  | .relockGold _ _ => true
  | .withdrawLockedGold _ => true
  | .createAccount => true
  | .setAccountField => true
  | .authorizeVoteSigner => true
  | _ => false

/-- Dispatch one accounting operation on a vesting instance, returning the
new state and the outgoing transfers, or `none` for a reverted call. -/
def execOp (e : Env) (s : VestingSchedule) (st : VestingState) (now caller : Nat) :
    Op → Option (VestingState × List Transfer)
  | .withdraw amount => withdraw s st now caller amount
  | .pause duration => (pause s st now caller duration).map (fun st2 => (st2, []))
  | .revoke => (revoke s st now caller).map (fun st2 => (st2, []))
  | .refundAndFinalize => refundAndFinalize s st now caller
  | .lockGold amount => (lockGold s st now caller amount).map (fun st2 => (st2, []))
  | .unlockGold amount => (unlockGold e s st now caller amount).map (fun st2 => (st2, []))
  | .relockGold index amount =>
      (relockGold s st now caller index amount).map (fun st2 => (st2, []))
  | .withdrawLockedGold index =>
      (withdrawLockedGold s st now caller index).map (fun st2 => (st2, []))
  | .createAccount => (createAccount s st now caller).map (fun st2 => (st2, []))
  | .setAccountField => (setAccountField s st now caller).map (fun st2 => (st2, []))
  | .authorizeVoteSigner =>
      (authorizeVoteSigner e s st now caller).map (fun st2 => (st2, []))

/-- States of a vesting instance reachable from creation, paired with the
current time; operations execute at non-decreasing timestamps, direct token
deposits may arrive at any time, and time may pass with no operation. -/
inductive Reach (s : VestingSchedule) : VestingState → Nat → Prop
  | init (t0 : Nat) : Reach s (initState s) t0
  | step {st t t' st' tr} (e : Env) (caller : Nat) (op : Op) :
      Reach s st t → t ≤ t' → execOp e s st t' caller op = some (st', tr) →
      Reach s st' t'
  | deposit {st t t'} (amount : Nat) :
      Reach s st t → t ≤ t' → Reach s (deposit st amount) t'
  | tick {st t t'} : Reach s st t → t ≤ t' → Reach s st t'

/-- State of the `VestingFactory` contract (from `VestingFactory.sol`):
the beneficiary-to-instance registry (`vestings`, with address `0` meaning
no entry), the factory's own token balance, and its owner. -/
structure FactoryState where
  vestings : Nat → Nat
  factoryBalance : Nat
  owner : Nat

/-- Modelled from the spec: the schedule validation performed by the
constructor of the missing `VestingInstance.sol` (non-null beneficiary and
revoker, positive period count / amount / period duration / max pause,
`amountPerPeriod ≤ totalVestingAmount`, cliff shorter than a period, and a
schedule end point not already in the past). -/
def constructorChecks (s : VestingSchedule) (now : Nat) : Bool :=
  s.beneficiary ≠ 0 && s.revoker ≠ 0 &&
    0 < s.numPeriods && 0 < s.amountPerPeriod &&
    s.amountPerPeriod ≤ s.totalVestingAmount &&
    0 < s.periodDurationSeconds &&
    s.cliffDurationSeconds < s.periodDurationSeconds &&
    0 < s.maxPausePeriodSeconds &&
    now ≤ s.startTime + s.numPeriods * s.periodDurationSeconds

/-- `createVestingInstance` of `VestingFactory.sol`: owner-only; requires the
factory balance to cover the full vesting amount and the registry to have no
entry for the beneficiary; the `uint256` product `numPeriods * amountPerPeriod`
is overflow-checked (SafeMath); the constructor validation of the new
instance is `constructorChecks` (modelled from the spec, as that contract is
not in the source tree). On success the fresh instance address `newAddr`
(the nonzero address produced by `new VestingInstance(...)`) is registered,
the full amount is transferred to it — the boolean result of
`getGoldToken().transfer(...)` is not checked, exactly as in the source —
and a `NewVestingInstanceCreated(beneficiary, newAddr)` event is emitted. -/
def createVestingInstance (f : FactoryState) (caller : Nat) (s : VestingSchedule)
    (now newAddr : Nat) (transferOk : Bool) :
    Option (FactoryState × List (Nat × Nat)) :=
  if caller ≠ f.owner then none
  else if 2 ^ 256 ≤ s.numPeriods * s.amountPerPeriod then none
  else if f.factoryBalance < s.totalVestingAmount then none
  else if f.vestings s.beneficiary ≠ 0 then none
  else if ¬ constructorChecks s now then none
  else
    some ({ f with
              vestings := fun b => if b = s.beneficiary then newAddr else f.vestings b
              factoryBalance :=
                if transferOk then f.factoryBalance - s.totalVestingAmount
                else f.factoryBalance },
          [(s.beneficiary, newAddr)])

/-- The test suite's default schedule with zero cliff: 4 periods of 3 months,
`X` token units per period, starting at `S` (beneficiary address 1, revoker
address 2). -/
def quarterlySchedule (X S : Nat) : VestingSchedule :=
  { beneficiary := 1
    revoker := 2
    numPeriods := 4
    amountPerPeriod := X
    periodDurationSeconds := 3 * MONTH
    startTime := S
    cliffDurationSeconds := 0
    revocable := true
    maxPausePeriodSeconds := 365 * DAY }

/-- A collaborator environment with no outstanding governance vote, no
balance requirement, the test suite's 3-day unlocking period, and valid
signature responses. -/
def env0 : Env :=
  { hasPendingGovernanceVote := false
    balanceRequirement := 0
    unlockingPeriod := 3 * DAY
    signatureValid := true
    signerAvailable := true }

/-- A concrete life cycle of the quarterly schedule (25 units per period,
start 0) exhibiting surplus funds: revoke one day into the third period
(snapshot 50), beneficiary withdraws 10, an external party deposits 7
directly, then the revoker refunds and finalizes. -/
def surplusTrace : Option (VestingState × List Transfer) :=
  (revoke (quarterlySchedule 25 0) (initState (quarterlySchedule 25 0))
      (2 * (3 * MONTH) + DAY) 2).bind fun st1 =>
    (withdraw (quarterlySchedule 25 0) st1 (2 * (3 * MONTH) + DAY) 1 10).bind fun p =>
      refundAndFinalize (quarterlySchedule 25 0) (deposit p.1 7) (2 * (3 * MONTH) + DAY) 2

/-- A concrete revoked, fully-unstaked state with a surplus balance:
snapshot 50, 10 already withdrawn, liquid balance 97. -/
def revokedSurplusState : VestingState :=
  { totalWithdrawn := 10
    isRevoked := true
    revokeTime := 2 * (3 * MONTH) + DAY
    vestedBalanceAtRevoke := 50
    pauseEndTime := 0
    balance := 97
    locked := 0
    pendingWithdrawals := []
    isAccount := false
    finalized := false }

/-- On the quarterly schedule, anywhere in the half-open window that starts
`k` full periods after `startTime`, exactly `k` periods' worth has vested. -/
lemma quarterly_vested_window (X S k d : Nat) (hk : k ≤ 4) (hd : d < 3 * MONTH) :
    getCurrentVestedTotalAmount (quarterlySchedule X S) (S + k * (3 * MONTH) + d) = X * k := by
  have hp : 0 < 3 * MONTH := by decide
  have hcliff : ¬ (S + k * (3 * MONTH) + d < (quarterlySchedule X S).cliffStartTime) := by
    simp only [quarterlySchedule, VestingSchedule.cliffStartTime]
    omega
  rw [getCurrentVestedTotalAmount, if_neg hcliff]
  simp only [quarterlySchedule]
  have h1 : S + k * (3 * MONTH) + d - S = 3 * MONTH * k + d := by
    rw [Nat.mul_comm]
    omega
  rw [h1, Nat.mul_add_div hp, Nat.div_eq_of_lt hd, Nat.add_zero, Nat.min_eq_left hk]

/-- A successful `withdraw` implies every guard and fully determines the
resulting state and the single outgoing transfer. -/
lemma withdraw_spec {s : VestingSchedule} {st : VestingState} {now caller amount : Nat}
    {st' : VestingState} {tr : List Transfer}
    (h : withdraw s st now caller amount = some (st', tr)) :
    st.finalized = false ∧ caller = s.beneficiary ∧ isPaused st now = false ∧
      0 < amount ∧ amount ≤ withdrawableNow s st now ∧ amount ≤ st.balance ∧
      st'.totalWithdrawn = st.totalWithdrawn + amount ∧
      st'.balance = st.balance - amount ∧
      st'.isRevoked = st.isRevoked ∧ st'.pauseEndTime = st.pauseEndTime ∧
      st'.vestedBalanceAtRevoke = st.vestedBalanceAtRevoke ∧
      tr = [(s.beneficiary, amount)] := by
  unfold withdraw at h
  split_ifs at h with h1 h2 h3 h4 h5 h6
  obtain ⟨rfl, rfl⟩ : _ ∧ _ := by
    simpa only [Option.some.injEq, Prod.mk.injEq] using h
  refine ⟨by simpa using h1, by omega, by simpa using h3, by omega, by omega, by omega,
    rfl, rfl, rfl, rfl, rfl, rfl⟩

/-- A successful `pause` implies every guard and determines the new state. -/
lemma pause_spec {s : VestingSchedule} {st : VestingState} {now caller duration : Nat}
    {st' : VestingState} (h : pause s st now caller duration = some st') :
    st.finalized = false ∧ caller = s.revoker ∧ s.revocable = true ∧
      st.isRevoked = false ∧ st.pauseEndTime ≤ now ∧
      duration ≤ s.maxPausePeriodSeconds ∧
      st' = { st with pauseEndTime := now + duration } := by
  unfold pause at h
  split_ifs at h with h1 h2 h3 h4 h5 h6
  obtain rfl : _ = st' := by simpa using h
  refine ⟨by simpa using h1, by omega, by simpa using h3, by simpa using h4,
    by simp only [isPaused, decide_eq_true_eq] at h5; omega, by omega, rfl⟩

/-- A successful `revoke` implies every guard and determines the new state:
it latches `isRevoked`, records `revokeTime`, and freezes the vested
snapshot, leaving every other field unchanged. -/
lemma revoke_spec {s : VestingSchedule} {st : VestingState} {now caller : Nat}
    {st' : VestingState} (h : revoke s st now caller = some st') :
    st.finalized = false ∧ caller = s.revoker ∧ s.revocable = true ∧
      st.isRevoked = false ∧ st.pauseEndTime ≤ now ∧
      st' = { st with
                isRevoked := true
                revokeTime := now
                vestedBalanceAtRevoke := getCurrentVestedTotalAmount s now } := by
  unfold revoke at h
  split_ifs at h with h1 h2 h3 h4 h5
  obtain rfl : _ = st' := by simpa using h
  refine ⟨by simpa using h1, by omega, by simpa using h3, by simpa using h4,
    by simp only [isPaused, decide_eq_true_eq] at h5; omega, rfl⟩

/-- A successful `refundAndFinalize` implies every guard and determines the
new state and the two outgoing transfers. -/
lemma refundAndFinalize_spec {s : VestingSchedule} {st : VestingState} {now caller : Nat}
    {st' : VestingState} {tr : List Transfer}
    (h : refundAndFinalize s st now caller = some (st', tr)) :
    st.finalized = false ∧ caller = s.revoker ∧ st.isRevoked = true ∧
      stakedTotal st = 0 ∧
      st.vestedBalanceAtRevoke - st.totalWithdrawn ≤ st.balance ∧
      st' = { st with balance := 0, finalized := true } ∧
      tr = [(s.beneficiary, st.vestedBalanceAtRevoke - st.totalWithdrawn),
            (s.revoker, st.balance - (st.vestedBalanceAtRevoke - st.totalWithdrawn))] := by
  unfold refundAndFinalize at h
  split_ifs at h with h1 h2 h3 h4 h5
  obtain ⟨rfl, rfl⟩ : _ ∧ _ := by
    simpa only [Option.some.injEq, Prod.mk.injEq] using h
  refine ⟨by simpa using h1, by omega, by simpa using h3, by omega, by omega, rfl, rfl⟩

/-- A successful `createAccount` implies the caller rule and preserves the
revocation and pause fields. -/
lemma createAccount_spec {s : VestingSchedule} {st : VestingState} {now caller : Nat}
    {st' : VestingState} (h : createAccount s st now caller = some st') :
    caller = authorizedCaller s st ∧ st'.isRevoked = st.isRevoked ∧
      st'.pauseEndTime = st.pauseEndTime ∧
      st'.vestedBalanceAtRevoke = st.vestedBalanceAtRevoke := by
  unfold createAccount at h
  split_ifs at h with h1 h2 h3
  obtain rfl : _ = st' := by simpa using h
  exact ⟨by omega, rfl, rfl, rfl⟩

/-- A successful `setAccountField` implies the caller rule and leaves the
state unchanged. -/
lemma setAccountField_spec {s : VestingSchedule} {st : VestingState} {now caller : Nat}
    {st' : VestingState} (h : setAccountField s st now caller = some st') :
    caller = authorizedCaller s st ∧ st' = st := by
  unfold setAccountField at h
  split_ifs at h with h1 h2 h3
  obtain rfl : _ = st' := by simpa using h
  exact ⟨by omega, rfl⟩

/-- A successful `authorizeVoteSigner` implies the caller rule and leaves the
state unchanged. -/
lemma authorizeVoteSigner_spec {e : Env} {s : VestingSchedule} {st : VestingState}
    {now caller : Nat} {st' : VestingState}
    (h : authorizeVoteSigner e s st now caller = some st') :
    caller = authorizedCaller s st ∧ st' = st := by
  unfold authorizeVoteSigner at h
  split_ifs at h with h1 h2 h3 h4 h5
  obtain rfl : _ = st' := by simpa using h
  exact ⟨by omega, rfl⟩

/-- A successful `lockGold` implies the caller rule and preserves the
revocation and pause fields. -/
lemma lockGold_spec {s : VestingSchedule} {st : VestingState} {now caller amount : Nat}
    {st' : VestingState} (h : lockGold s st now caller amount = some st') :
    caller = authorizedCaller s st ∧ st'.isRevoked = st.isRevoked ∧
      st'.pauseEndTime = st.pauseEndTime ∧
      st'.vestedBalanceAtRevoke = st.vestedBalanceAtRevoke := by
  unfold lockGold at h
  split_ifs at h with h1 h2 h3 h4
  obtain rfl : _ = st' := by simpa using h
  exact ⟨by omega, rfl, rfl, rfl⟩

/-- A successful `unlockGold` implies the caller rule and preserves the
revocation and pause fields. -/
lemma unlockGold_spec {e : Env} {s : VestingSchedule} {st : VestingState}
    {now caller amount : Nat} {st' : VestingState}
    (h : unlockGold e s st now caller amount = some st') :
    caller = authorizedCaller s st ∧ st'.isRevoked = st.isRevoked ∧
      st'.pauseEndTime = st.pauseEndTime ∧
      st'.vestedBalanceAtRevoke = st.vestedBalanceAtRevoke := by
  unfold unlockGold at h
  split_ifs at h with h1 h2 h3 h4 h5
  obtain rfl : _ = st' := by simpa using h
  exact ⟨by omega, rfl, rfl, rfl⟩

/-- A successful `withdrawLockedGold` implies the caller rule and preserves
the revocation and pause fields. -/
lemma withdrawLockedGold_spec {s : VestingSchedule} {st : VestingState}
    {now caller index : Nat} {st' : VestingState}
    (h : withdrawLockedGold s st now caller index = some st') :
    caller = authorizedCaller s st ∧ st'.isRevoked = st.isRevoked ∧
      st'.pauseEndTime = st.pauseEndTime ∧
      st'.vestedBalanceAtRevoke = st.vestedBalanceAtRevoke := by
  unfold withdrawLockedGold at h
  split_ifs at h with h1 h2
  split at h
  · exact Option.noConfusion h
  · split_ifs at h with h3
    obtain rfl : _ = st' := by simpa using h
    exact ⟨by omega, rfl, rfl, rfl⟩

/-- A successful `relockGold` implies the caller rule and preserves the
revocation and pause fields. -/
lemma relockGold_spec {s : VestingSchedule} {st : VestingState}
    {now caller index amount : Nat} {st' : VestingState}
    (h : relockGold s st now caller index amount = some st') :
    caller = authorizedCaller s st ∧ st'.isRevoked = st.isRevoked ∧
      st'.pauseEndTime = st.pauseEndTime ∧
      st'.vestedBalanceAtRevoke = st.vestedBalanceAtRevoke := by
  unfold relockGold at h
  split_ifs at h with h1 h2
  split at h
  · exact Option.noConfusion h
  · split_ifs at h with h3 h4
    all_goals obtain rfl : _ = st' := by simpa using h
    all_goals exact ⟨by omega, rfl, rfl, rfl⟩

/-- Once an instance is finalized, every accounting operation reverts. -/
lemma execOp_finalized (e : Env) (s : VestingSchedule) {st : VestingState}
    (now caller : Nat) (op : Op) (hf : st.finalized = true) :
    execOp e s st now caller op = none := by
  cases op <;>
    simp [execOp, withdraw, pause, revoke, refundAndFinalize, lockGold, unlockGold,
      relockGold, withdrawLockedGold, createAccount, setAccountField,
      authorizeVoteSigner, hf]

/-- Any successful delegation operation was called by the authorized caller
(beneficiary while unrevoked, revoker once revoked). -/
lemma execOp_delegation_caller {e : Env} {s : VestingSchedule} {st : VestingState}
    {now caller : Nat} {op : Op} {st' : VestingState} {tr : List Transfer}
    (hop : op.isDelegation = true)
    (h : execOp e s st now caller op = some (st', tr)) :
    caller = authorizedCaller s st := by
  cases op with
  | lockGold amount =>
      obtain ⟨a, ha, -⟩ := Option.map_eq_some'.mp h
      exact (lockGold_spec ha).1
  | unlockGold amount =>
      obtain ⟨a, ha, -⟩ := Option.map_eq_some'.mp h
      exact (unlockGold_spec ha).1
  | relockGold index amount =>
      obtain ⟨a, ha, -⟩ := Option.map_eq_some'.mp h
      exact (relockGold_spec ha).1
  | withdrawLockedGold index =>
      obtain ⟨a, ha, -⟩ := Option.map_eq_some'.mp h
      exact (withdrawLockedGold_spec ha).1
  | createAccount =>
      obtain ⟨a, ha, -⟩ := Option.map_eq_some'.mp h
      exact (createAccount_spec ha).1
  | setAccountField =>
      obtain ⟨a, ha, -⟩ := Option.map_eq_some'.mp h
      exact (setAccountField_spec ha).1
  | authorizeVoteSigner =>
      obtain ⟨a, ha, -⟩ := Option.map_eq_some'.mp h
      exact (authorizeVoteSigner_spec ha).1
  | withdraw amount => exact absurd hop (by simp [Op.isDelegation])
  | pause duration => exact absurd hop (by simp [Op.isDelegation])
  | revoke => exact absurd hop (by simp [Op.isDelegation])
  | refundAndFinalize => exact absurd hop (by simp [Op.isDelegation])

/-- Once revoked, every successful accounting operation keeps the instance
revoked and preserves both the frozen vested snapshot and the pause field. -/
lemma execOp_revoked_core {e : Env} {s : VestingSchedule} {st : VestingState}
    {now caller : Nat} {op : Op} {st' : VestingState} {tr : List Transfer}
    (hrev : st.isRevoked = true)
    (h : execOp e s st now caller op = some (st', tr)) :
    st'.isRevoked = true ∧ st'.vestedBalanceAtRevoke = st.vestedBalanceAtRevoke ∧
      st'.pauseEndTime = st.pauseEndTime := by
  cases op with
  | withdraw amount =>
      obtain ⟨-, -, -, -, -, -, -, -, h9, h10, h11, -⟩ := withdraw_spec h
      exact ⟨h9.trans hrev, h11, h10⟩
  | pause duration =>
      obtain ⟨a, ha, -⟩ := Option.map_eq_some'.mp h
      exact absurd hrev (by simp [(pause_spec ha).2.2.2.1])
  | revoke =>
      obtain ⟨a, ha, -⟩ := Option.map_eq_some'.mp h
      exact absurd hrev (by simp [(revoke_spec ha).2.2.2.1])
  | refundAndFinalize =>
      have h2 : refundAndFinalize s st now caller = some (st', tr) := h
      obtain ⟨-, -, -, -, -, hst, -⟩ := refundAndFinalize_spec h2
      subst hst
      exact ⟨hrev, rfl, rfl⟩
  | lockGold amount =>
      obtain ⟨a, ha, hpr⟩ := Option.map_eq_some'.mp h
      obtain ⟨rfl, -⟩ : a = st' ∧ ([] : List Transfer) = tr := by
        simpa [Prod.ext_iff] using hpr
      obtain ⟨-, h2, h3, h4⟩ := lockGold_spec ha
      exact ⟨h2.trans hrev, h4, h3⟩
  | unlockGold amount =>
      obtain ⟨a, ha, hpr⟩ := Option.map_eq_some'.mp h
      obtain ⟨rfl, -⟩ : a = st' ∧ ([] : List Transfer) = tr := by
        simpa [Prod.ext_iff] using hpr
      obtain ⟨-, h2, h3, h4⟩ := unlockGold_spec ha
      exact ⟨h2.trans hrev, h4, h3⟩
  | relockGold index amount =>
      obtain ⟨a, ha, hpr⟩ := Option.map_eq_some'.mp h
      obtain ⟨rfl, -⟩ : a = st' ∧ ([] : List Transfer) = tr := by
        simpa [Prod.ext_iff] using hpr
      obtain ⟨-, h2, h3, h4⟩ := relockGold_spec ha
      exact ⟨h2.trans hrev, h4, h3⟩
  | withdrawLockedGold index =>
      obtain ⟨a, ha, hpr⟩ := Option.map_eq_some'.mp h
      obtain ⟨rfl, -⟩ : a = st' ∧ ([] : List Transfer) = tr := by
        simpa [Prod.ext_iff] using hpr
      obtain ⟨-, h2, h3, h4⟩ := withdrawLockedGold_spec ha
      exact ⟨h2.trans hrev, h4, h3⟩
  | createAccount =>
      obtain ⟨a, ha, hpr⟩ := Option.map_eq_some'.mp h
      obtain ⟨rfl, -⟩ : a = st' ∧ ([] : List Transfer) = tr := by
        simpa [Prod.ext_iff] using hpr
      obtain ⟨-, h2, h3, h4⟩ := createAccount_spec ha
      exact ⟨h2.trans hrev, h4, h3⟩
  | setAccountField =>
      obtain ⟨a, ha, hpr⟩ := Option.map_eq_some'.mp h
      obtain ⟨rfl, -⟩ : a = st' ∧ ([] : List Transfer) = tr := by
        simpa [Prod.ext_iff] using hpr
      obtain rfl := (setAccountField_spec ha).2
      exact ⟨hrev, rfl, rfl⟩
  | authorizeVoteSigner =>
      obtain ⟨a, ha, hpr⟩ := Option.map_eq_some'.mp h
      obtain ⟨rfl, -⟩ : a = st' ∧ ([] : List Transfer) = tr := by
        simpa [Prod.ext_iff] using hpr
      obtain rfl := (authorizeVoteSigner_spec ha).2
      exact ⟨hrev, rfl, rfl⟩

/-- The only successful operation that newly revokes an instance is `revoke`,
and it requires the pause window to have elapsed. -/
lemma execOp_newly_revoked {e : Env} {s : VestingSchedule} {st : VestingState}
    {now caller : Nat} {op : Op} {st' : VestingState} {tr : List Transfer}
    (h0 : st.isRevoked = false)
    (h : execOp e s st now caller op = some (st', tr))
    (h1 : st'.isRevoked = true) :
    st'.pauseEndTime ≤ now := by
  cases op with
  | withdraw amount =>
      obtain ⟨-, -, -, -, -, -, -, -, h9, -⟩ := withdraw_spec h
      rw [h9, h0] at h1
      exact Bool.noConfusion h1
  | pause duration =>
      obtain ⟨a, ha, hpr⟩ := Option.map_eq_some'.mp h
      obtain ⟨rfl, -⟩ : a = st' ∧ ([] : List Transfer) = tr := by
        simpa [Prod.ext_iff] using hpr
      obtain ⟨-, -, -, -, -, -, hst⟩ := pause_spec ha
      rw [hst] at h1
      simp only at h1
      rw [h0] at h1
      exact Bool.noConfusion h1
  | revoke =>
      obtain ⟨a, ha, hpr⟩ := Option.map_eq_some'.mp h
      obtain ⟨rfl, -⟩ : a = st' ∧ ([] : List Transfer) = tr := by
        simpa [Prod.ext_iff] using hpr
      obtain ⟨-, -, -, -, hpe, hst⟩ := revoke_spec ha
      rw [hst]
      simpa using hpe
  | refundAndFinalize =>
      have h2 : refundAndFinalize s st now caller = some (st', tr) := h
      obtain ⟨-, -, h3, -⟩ := refundAndFinalize_spec h2
      rw [h0] at h3
      exact Bool.noConfusion h3
  | lockGold amount =>
      obtain ⟨a, ha, hpr⟩ := Option.map_eq_some'.mp h
      obtain ⟨rfl, -⟩ : a = st' ∧ ([] : List Transfer) = tr := by
        simpa [Prod.ext_iff] using hpr
      rw [(lockGold_spec ha).2.1, h0] at h1
      exact Bool.noConfusion h1
  | unlockGold amount =>
      obtain ⟨a, ha, hpr⟩ := Option.map_eq_some'.mp h
      obtain ⟨rfl, -⟩ : a = st' ∧ ([] : List Transfer) = tr := by
        simpa [Prod.ext_iff] using hpr
      rw [(unlockGold_spec ha).2.1, h0] at h1
      exact Bool.noConfusion h1
  | relockGold index amount =>
      obtain ⟨a, ha, hpr⟩ := Option.map_eq_some'.mp h
      obtain ⟨rfl, -⟩ : a = st' ∧ ([] : List Transfer) = tr := by
        simpa [Prod.ext_iff] using hpr
      rw [(relockGold_spec ha).2.1, h0] at h1
      exact Bool.noConfusion h1
  | withdrawLockedGold index =>
      obtain ⟨a, ha, hpr⟩ := Option.map_eq_some'.mp h
      obtain ⟨rfl, -⟩ : a = st' ∧ ([] : List Transfer) = tr := by
        simpa [Prod.ext_iff] using hpr
      rw [(withdrawLockedGold_spec ha).2.1, h0] at h1
      exact Bool.noConfusion h1
  | createAccount =>
      obtain ⟨a, ha, hpr⟩ := Option.map_eq_some'.mp h
      obtain ⟨rfl, -⟩ : a = st' ∧ ([] : List Transfer) = tr := by
        simpa [Prod.ext_iff] using hpr
      rw [(createAccount_spec ha).2.1, h0] at h1
      exact Bool.noConfusion h1
  | setAccountField =>
      obtain ⟨a, ha, hpr⟩ := Option.map_eq_some'.mp h
      obtain ⟨rfl, -⟩ : a = st' ∧ ([] : List Transfer) = tr := by
        simpa [Prod.ext_iff] using hpr
      obtain rfl := (setAccountField_spec ha).2
      rw [h0] at h1
      exact Bool.noConfusion h1
  | authorizeVoteSigner =>
      obtain ⟨a, ha, hpr⟩ := Option.map_eq_some'.mp h
      obtain ⟨rfl, -⟩ : a = st' ∧ ([] : List Transfer) = tr := by
        simpa [Prod.ext_iff] using hpr
      obtain rfl := (authorizeVoteSigner_spec ha).2
      rw [h0] at h1
      exact Bool.noConfusion h1

/-- In every reachable configuration, a revoked instance has a pause window
that already elapsed: being paused and revoked at once is unreachable. -/
lemma reach_revoked_pause_elapsed {s : VestingSchedule} {st : VestingState} {t : Nat}
    (h : Reach s st t) : st.isRevoked = true → st.pauseEndTime ≤ t := by
  induction h with
  | init t0 =>
      intro hr
      exact absurd hr (by simp [initState])
  | @step st t t' st' tr e caller op hR hle hexec ih =>
      intro hr
      by_cases hrev : st.isRevoked = true
      · obtain ⟨-, -, hpe⟩ := execOp_revoked_core hrev hexec
        rw [hpe]
        exact le_trans (ih hrev) hle
      · simp only [Bool.not_eq_true] at hrev
        exact execOp_newly_revoked hrev hexec hr
  | @deposit st t t' amount hR hle ih =>
      intro hr
      exact le_trans (ih (by simpa [deposit] using hr)) hle
  | @tick st t t' hR hle ih =>
      intro hr
      exact le_trans (ih hr) hle

/-- C1: `getCurrentVestedTotalAmount` returns 0 before `cliffStartTime` and
otherwise `amountPerPeriod * floor((now - startTime) / periodDurationSeconds)`
clamped to `[0, numPeriods]`; on the 4-period quarterly schedule it returns
exactly `k` quarters of the total (`X * k`, with total `X * 4`) one day after
the `k`-th period boundary, and is constant on each window strictly between
boundaries (nothing vests between them). -/
theorem C1_vested_total_step_function :
    (∀ (s : VestingSchedule) (now : Nat), now < s.cliffStartTime →
        getCurrentVestedTotalAmount s now = 0) ∧
    (∀ (s : VestingSchedule) (now : Nat), s.cliffStartTime ≤ now →
        getCurrentVestedTotalAmount s now =
          s.amountPerPeriod *
            min ((now - s.startTime) / s.periodDurationSeconds) s.numPeriods) ∧
    (∀ X S : Nat, (quarterlySchedule X S).totalVestingAmount = X * 4) ∧
    (∀ X S k : Nat, 1 ≤ k → k ≤ 4 →
        getCurrentVestedTotalAmount (quarterlySchedule X S)
          (S + k * (3 * MONTH) + DAY) = X * k) ∧
    (∀ X S k d : Nat, k ≤ 4 → d < 3 * MONTH →
        getCurrentVestedTotalAmount (quarterlySchedule X S)
          (S + k * (3 * MONTH) + d) = X * k) := by
  refine ⟨?_, ?_, ?_, ?_, ?_⟩
  · intro s now hlt
    rw [getCurrentVestedTotalAmount, if_pos hlt]
  · intro s now hge
    rw [getCurrentVestedTotalAmount, if_neg (not_lt.mpr hge)]
  · intro X S
    rfl
  · intro X S k _ hk4
    exact quarterly_vested_window X S k DAY hk4 (by decide)
  · intro X S k d hk hd
    exact quarterly_vested_window X S k d hk hd

/-- Witness for C1 at a concrete input: two periods plus one day into the
quarterly schedule, exactly half the total has vested. -/
theorem C1_vested_total_step_function_witness :
    1 ≤ 2 ∧ 2 ≤ 4 ∧
      getCurrentVestedTotalAmount (quarterlySchedule 25 1000)
        (1000 + 2 * (3 * MONTH) + DAY) = 25 * 2 :=
  ⟨by decide, by decide,
    C1_vested_total_step_function.2.2.2.1 25 1000 2 (by decide) (by decide)⟩

/-- C3: `withdraw` succeeds only when the caller is the beneficiary, the
instance is not paused, `0 < amount` and
`amount ≤ withdrawableNow(now)`; on success `totalWithdrawn` grows by
exactly `amount` and exactly `amount` is transferred to the beneficiary;
whenever one of those conditions fails, the call reverts (returns `none`,
i.e. no state change in this embedding). -/
theorem C3_withdraw_guarded :
    (∀ (s : VestingSchedule) (st : VestingState) (now caller amount : Nat)
        (st' : VestingState) (tr : List Transfer),
        withdraw s st now caller amount = some (st', tr) →
        caller = s.beneficiary ∧ isPaused st now = false ∧ 0 < amount ∧
          amount ≤ withdrawableNow s st now ∧
          st'.totalWithdrawn = st.totalWithdrawn + amount ∧
          tr = [(s.beneficiary, amount)]) ∧
    (∀ (s : VestingSchedule) (st : VestingState) (now caller amount : Nat),
        caller ≠ s.beneficiary ∨ isPaused st now = true ∨ amount = 0 ∨
            withdrawableNow s st now < amount →
        withdraw s st now caller amount = none) := by
  constructor
  · intro s st now caller amount st' tr h
    obtain ⟨-, h2, h3, h4, h5, -, h7, -, -, -, -, h12⟩ := withdraw_spec h
    exact ⟨h2, h3, h4, h5, h7, h12⟩
  · intro s st now caller amount hbad
    unfold withdraw
    split_ifs with h1 h2 h3 h4 h5 h6
    all_goals try rfl
    exfalso
    rcases hbad with hb | hb | hb | hb
    · exact h2 hb
    · rw [hb] at h3
      exact h3 rfl
    · exact h4 hb
    · exact h5 hb

/-- Witness for C3 at a concrete input: one day into the second period of the
quarterly schedule, the beneficiary successfully withdraws 30 of the 50
vested units. -/
theorem C3_withdraw_guarded_witness :
    (1 : Nat) = (quarterlySchedule 25 0).beneficiary ∧
      isPaused (initState (quarterlySchedule 25 0)) (2 * (3 * MONTH) + DAY) = false ∧
      0 < 30 ∧
      30 ≤ withdrawableNow (quarterlySchedule 25 0) (initState (quarterlySchedule 25 0))
            (2 * (3 * MONTH) + DAY) ∧
      ({ initState (quarterlySchedule 25 0) with
           totalWithdrawn := 30
           balance := 70 } : VestingState).totalWithdrawn =
        (initState (quarterlySchedule 25 0)).totalWithdrawn + 30 ∧
      ([((quarterlySchedule 25 0).beneficiary, 30)] : List Transfer) = [(1, 30)] :=
  C3_withdraw_guarded.1 (quarterlySchedule 25 0) (initState (quarterlySchedule 25 0))
    (2 * (3 * MONTH) + DAY) 1 30
    ({ initState (quarterlySchedule 25 0) with totalWithdrawn := 30, balance := 70 })
    [(1, 30)] (by decide)

/-- C4: a successful `revoke` at time `r` snapshots
`vestedBalanceAtRevoke = getCurrentVestedTotalAmount(r)`; once revoked, a
`withdraw` of more than `vestedBalanceAtRevoke - totalWithdrawn` always
reverts, and every successful later operation keeps the instance revoked
with the snapshot unchanged — further time passage never changes the
ceiling. -/
theorem C4_revoke_freezes_ceiling :
    (∀ (s : VestingSchedule) (st : VestingState) (now caller : Nat)
        (st' : VestingState), revoke s st now caller = some st' →
        st'.isRevoked = true ∧
          st'.vestedBalanceAtRevoke = getCurrentVestedTotalAmount s now) ∧
    (∀ (s : VestingSchedule) (st : VestingState) (now caller amount : Nat),
        st.isRevoked = true →
        st.vestedBalanceAtRevoke - st.totalWithdrawn < amount →
        withdraw s st now caller amount = none) ∧
    (∀ (e : Env) (s : VestingSchedule) (st : VestingState) (now caller : Nat)
        (op : Op) (st' : VestingState) (tr : List Transfer),
        st.isRevoked = true → execOp e s st now caller op = some (st', tr) →
        st'.isRevoked = true ∧
          st'.vestedBalanceAtRevoke = st.vestedBalanceAtRevoke) := by
  refine ⟨?_, ?_, ?_⟩
  · intro s st now caller st' h
    obtain ⟨-, -, -, -, -, hst⟩ := revoke_spec h
    rw [hst]
    exact ⟨rfl, rfl⟩
  · intro s st now caller amount hrev hgt
    unfold withdraw
    split_ifs with h1 h2 h3 h4 h5 h6
    all_goals try rfl
    exfalso
    apply h5
    unfold withdrawableNow
    rw [hrev]
    simpa using hgt
  · intro e s st now caller op st' tr hrev h
    obtain ⟨ha, hb, -⟩ := execOp_revoked_core hrev h
    exact ⟨ha, hb⟩

/-- Witness for C4: on a concrete revoked state with snapshot 50 and 10
already withdrawn, withdrawing 41 reverts. -/
theorem C4_revoke_freezes_ceiling_witness :
    withdraw (quarterlySchedule 25 0) revokedSurplusState
      (3 * (3 * MONTH)) 1 41 = none :=
  C4_revoke_freezes_ceiling.2.1 (quarterlySchedule 25 0) revokedSurplusState
    (3 * (3 * MONTH)) 1 41 (by decide) (by decide)

/-- C5: `pause` reverts whenever the instance is already revoked, `revoke`
reverts whenever the instance is currently paused (`now < pauseEndTime`),
and in every reachable configuration an instance is never both revoked and
inside a pause window. -/
theorem C5_pause_revoke_mutually_exclusive :
    (∀ (s : VestingSchedule) (st : VestingState) (now caller duration : Nat),
        st.isRevoked = true → pause s st now caller duration = none) ∧
    (∀ (s : VestingSchedule) (st : VestingState) (now caller : Nat),
        now < st.pauseEndTime → revoke s st now caller = none) ∧
    (∀ (s : VestingSchedule) (st : VestingState) (t : Nat), Reach s st t →
        ¬ (st.isRevoked = true ∧ t < st.pauseEndTime)) := by
  refine ⟨?_, ?_, ?_⟩
  · intro s st now caller duration hrev
    simp [pause, hrev]
  · intro s st now caller hlt
    simp [revoke, isPaused, hlt]
  · intro s st t hreach ⟨hrev, hlt⟩
    exact absurd (reach_revoked_pause_elapsed hreach hrev) (by omega)

/-- Witness for C5 at concrete inputs: pausing the concrete revoked state
reverts, and revoking a freshly paused state reverts. -/
theorem C5_pause_revoke_mutually_exclusive_witness :
    pause (quarterlySchedule 25 0) revokedSurplusState 0 2 DAY = none ∧
      revoke (quarterlySchedule 25 0)
        ({ initState (quarterlySchedule 25 0) with pauseEndTime := 100 }) 50 2 = none :=
  ⟨C5_pause_revoke_mutually_exclusive.1 (quarterlySchedule 25 0) revokedSurplusState
      0 2 DAY (by decide),
    C5_pause_revoke_mutually_exclusive.2.1 (quarterlySchedule 25 0)
      ({ initState (quarterlySchedule 25 0) with pauseEndTime := 100 }) 50 2 (by decide)⟩

/-- C2: a successful `refundAndFinalize` transfers exactly
`vestedBalanceAtRevoke - totalWithdrawn` to the beneficiary and the rest of
the instance's liquid balance to the revoker; the two refunds sum to the
balance immediately before the call, the balance is 0 immediately after,
and every further accounting operation on the instance reverts. -/
theorem C2_refundAndFinalize_conservation :
    ∀ (e : Env) (s : VestingSchedule) (st : VestingState) (now caller : Nat)
      (st' : VestingState) (tr : List Transfer),
      refundAndFinalize s st now caller = some (st', tr) →
      tr = [(s.beneficiary, st.vestedBalanceAtRevoke - st.totalWithdrawn),
            (s.revoker, st.balance - (st.vestedBalanceAtRevoke - st.totalWithdrawn))] ∧
        (st.vestedBalanceAtRevoke - st.totalWithdrawn)
            + (st.balance - (st.vestedBalanceAtRevoke - st.totalWithdrawn))
          = st.balance ∧
        st'.balance = 0 ∧
        (∀ (now2 caller2 : Nat) (op : Op), execOp e s st' now2 caller2 op = none) := by
  intro e s st now caller st' tr h
  obtain ⟨-, -, -, -, h5, hst, htr⟩ := refundAndFinalize_spec h
  subst hst
  refine ⟨htr, by omega, rfl, ?_⟩
  intro now2 caller2 op
  exact execOp_finalized e s now2 caller2 op rfl

/-- Witness for C2 at a concrete input: on the revoked surplus state
(snapshot 50, withdrawn 10, balance 97) the refunds are 40 to the
beneficiary and 57 to the revoker. -/
theorem C2_refundAndFinalize_conservation_witness :
    ([(1, 40), (2, 57)] : List Transfer) =
        [((quarterlySchedule 25 0).beneficiary,
            revokedSurplusState.vestedBalanceAtRevoke - revokedSurplusState.totalWithdrawn),
          ((quarterlySchedule 25 0).revoker,
            revokedSurplusState.balance -
              (revokedSurplusState.vestedBalanceAtRevoke -
                revokedSurplusState.totalWithdrawn))] ∧
      (revokedSurplusState.vestedBalanceAtRevoke - revokedSurplusState.totalWithdrawn)
          + (revokedSurplusState.balance -
              (revokedSurplusState.vestedBalanceAtRevoke -
                revokedSurplusState.totalWithdrawn))
        = revokedSurplusState.balance ∧
      ({ revokedSurplusState with balance := 0, finalized := true } : VestingState).balance
        = 0 ∧
      (∀ (now2 caller2 : Nat) (op : Op),
        execOp env0 (quarterlySchedule 25 0)
          ({ revokedSurplusState with balance := 0, finalized := true }) now2 caller2 op
          = none) :=
  C2_refundAndFinalize_conservation env0 (quarterlySchedule 25 0) revokedSurplusState
    0 2 ({ revokedSurplusState with balance := 0, finalized := true })
    [(1, 40), (2, 57)] (by decide)

/-- C8: every staking / identity delegation operation (lockGold, unlockGold,
relockGold, withdrawLockedGold, createAccount, the setAccount* family,
authorizeVoteSigner) succeeds only when called by the beneficiary while
unrevoked and only by the revoker once revoked; any other caller reverts in
every state. -/
theorem C8_delegation_authorization :
    ∀ (e : Env) (s : VestingSchedule) (st : VestingState) (now caller : Nat)
      (op : Op) (st' : VestingState) (tr : List Transfer),
      op.isDelegation = true →
      execOp e s st now caller op = some (st', tr) →
      caller = (if st.isRevoked then s.revoker else s.beneficiary) := by
  intro e s st now caller op st' tr hop h
  have := execOp_delegation_caller hop h
  rwa [authorizedCaller] at this

/-- Witness for C8 at a concrete input: on the fresh (unrevoked) quarterly
instance, `createAccount` succeeds for caller 1, who is indeed the
beneficiary. -/
theorem C8_delegation_authorization_witness :
    (1 : Nat) =
      (if (initState (quarterlySchedule 25 0)).isRevoked then (quarterlySchedule 25 0).revoker
       else (quarterlySchedule 25 0).beneficiary) :=
  C8_delegation_authorization env0 (quarterlySchedule 25 0)
    (initState (quarterlySchedule 25 0)) 0 1 Op.createAccount
    ({ initState (quarterlySchedule 25 0) with isAccount := true }) []
    (by decide) (by decide)

/-- A `createVestingInstance` call reverts whenever the registry already has
an entry for the beneficiary (the `require` at VestingFactory.sol line 49). -/
lemma createVestingInstance_registered_fails {f : FactoryState} {caller : Nat}
    {s : VestingSchedule} {now addr : Nat} {tOk : Bool}
    (h : f.vestings s.beneficiary ≠ 0) :
    createVestingInstance f caller s now addr tOk = none := by
  simp [createVestingInstance, h]

/-- A successful `createVestingInstance` implies every guard and fully
determines the updated registry and the emitted event. -/
lemma createVestingInstance_success_spec {f : FactoryState} {caller : Nat}
    {s : VestingSchedule} {now addr : Nat} {tOk : Bool} {f' : FactoryState}
    {ev : List (Nat × Nat)}
    (h : createVestingInstance f caller s now addr tOk = some (f', ev)) :
    caller = f.owner ∧ s.numPeriods * s.amountPerPeriod < 2 ^ 256 ∧
      s.totalVestingAmount ≤ f.factoryBalance ∧
      f.vestings s.beneficiary = 0 ∧ constructorChecks s now = true ∧
      f'.vestings = (fun b => if b = s.beneficiary then addr else f.vestings b) ∧
      ev = [(s.beneficiary, addr)] := by
  unfold createVestingInstance at h
  split_ifs at h with h1 h2 h3 h4 h5 h6
  all_goals obtain ⟨rfl, rfl⟩ : _ ∧ _ := by simpa only [Option.some.injEq, Prod.mk.injEq] using h
  all_goals exact ⟨by omega, by omega, by omega, by omega, by simpa using h5, rfl, rfl⟩

/-- C6: the factory registry is insertion-only and 1:1 — once any instance
is registered for a beneficiary, every later `createVestingInstance` call
for that beneficiary reverts regardless of the schedule, and successful
creations never overwrite an existing entry (they require the slot to be
empty and leave every other slot unchanged). -/
theorem C6_registry_insertion_only :
    (∀ (f : FactoryState) (caller : Nat) (s : VestingSchedule) (now addr : Nat)
        (tOk : Bool), f.vestings s.beneficiary ≠ 0 →
        createVestingInstance f caller s now addr tOk = none) ∧
    (∀ (f : FactoryState) (caller : Nat) (s : VestingSchedule) (now addr : Nat)
        (tOk : Bool) (f' : FactoryState) (ev : List (Nat × Nat)),
        createVestingInstance f caller s now addr tOk = some (f', ev) →
        f.vestings s.beneficiary = 0 ∧ f'.vestings s.beneficiary = addr ∧
          ∀ b : Nat, b ≠ s.beneficiary → f'.vestings b = f.vestings b) ∧
    (∀ (f : FactoryState) (caller : Nat) (s : VestingSchedule) (now addr : Nat)
        (tOk : Bool) (f' : FactoryState) (ev : List (Nat × Nat)),
        createVestingInstance f caller s now addr tOk = some (f', ev) → addr ≠ 0 →
        ∀ (caller2 : Nat) (s2 : VestingSchedule) (now2 addr2 : Nat) (tOk2 : Bool),
          s2.beneficiary = s.beneficiary →
          createVestingInstance f' caller2 s2 now2 addr2 tOk2 = none) := by
  refine ⟨?_, ?_, ?_⟩
  · intro f caller s now addr tOk h
    exact createVestingInstance_registered_fails h
  · intro f caller s now addr tOk f' ev h
    obtain ⟨-, -, -, h4, -, h6, -⟩ := createVestingInstance_success_spec h
    refine ⟨h4, by simp [h6], ?_⟩
    intro b hb
    simp [h6, hb]
  · intro f caller s now addr tOk f' ev h haddr caller2 s2 now2 addr2 tOk2 hben
    obtain ⟨-, -, -, -, -, h6, -⟩ := createVestingInstance_success_spec h
    apply createVestingInstance_registered_fails
    rw [hben]
    simp [h6, haddr]

/-- Witness for C6 at a concrete input: with address 5 already registered for
beneficiary 1, a second creation for beneficiary 1 reverts. -/
theorem C6_registry_insertion_only_witness :
    createVestingInstance
        ({ vestings := fun b => if b = 1 then 5 else 0, factoryBalance := 100, owner := 7 })
        7 (quarterlySchedule 25 0) 0 9 true = none :=
  C6_registry_insertion_only.1
    ({ vestings := fun b => if b = 1 then 5 else 0, factoryBalance := 100, owner := 7 })
    7 (quarterlySchedule 25 0) 0 9 true (by simp [quarterlySchedule])

/-- C7: a schedule whose product `numPeriods * amountPerPeriod` does not fit
in the unsigned 256-bit range is always rejected by `createVestingInstance`
(a revert, hence no state change in this embedding). -/
theorem C7_overflow_rejected :
    ∀ (f : FactoryState) (caller : Nat) (s : VestingSchedule) (now addr : Nat)
      (tOk : Bool), 2 ^ 256 ≤ s.numPeriods * s.amountPerPeriod →
      createVestingInstance f caller s now addr tOk = none := by
  intro f caller s now addr tOk h
  unfold createVestingInstance
  split_ifs with h1
  all_goals rfl

/-- Witness for C7 at a concrete input: `2 ^ 128` periods of `2 ^ 128` units
each overflow and the creation reverts. -/
theorem C7_overflow_rejected_witness :
    createVestingInstance
        ({ vestings := fun _ => 0, factoryBalance := 0, owner := 7 }) 7
        ({ beneficiary := 1, revoker := 2, numPeriods := 2 ^ 128,
           amountPerPeriod := 2 ^ 128, periodDurationSeconds := 1, startTime := 0,
           cliffDurationSeconds := 0, revocable := true, maxPausePeriodSeconds := 1 })
        0 9 true = none :=
  C7_overflow_rejected ({ vestings := fun _ => 0, factoryBalance := 0, owner := 7 }) 7
    ({ beneficiary := 1, revoker := 2, numPeriods := 2 ^ 128,
       amountPerPeriod := 2 ^ 128, periodDurationSeconds := 1, startTime := 0,
       cliffDurationSeconds := 0, revocable := true, maxPausePeriodSeconds := 1 })
    0 9 true (by norm_num)

/-- C9: `createVestingInstance` does not condition registration on the
funding transfer's boolean result: with the balance, uniqueness and
constructor checks passing, the call succeeds, registers the instance and
emits the creation event even when the token transfer reports failure
(`transferOk = false`, in which case no funds moved either). -/
theorem C9_transfer_result_unchecked :
    ∀ (f : FactoryState) (caller : Nat) (s : VestingSchedule) (now addr : Nat),
      caller = f.owner → s.numPeriods * s.amountPerPeriod < 2 ^ 256 →
      s.totalVestingAmount ≤ f.factoryBalance → f.vestings s.beneficiary = 0 →
      constructorChecks s now = true →
      ∀ tOk : Bool, ∃ f' : FactoryState,
        createVestingInstance f caller s now addr tOk = some (f', [(s.beneficiary, addr)]) ∧
          f'.vestings s.beneficiary = addr ∧
          (tOk = false → f'.factoryBalance = f.factoryBalance) := by
  intro f caller s now addr h1 h2 h3 h4 h5 tOk
  unfold createVestingInstance
  rw [if_neg (by omega), if_neg (by omega), if_neg (by omega),
    if_neg (by simp [h4]), if_neg (by simp [h5])]
  refine ⟨_, rfl, by simp, ?_⟩
  intro htOk
  simp [htOk]

/-- Witness for C9 at a concrete input: all checks pass, the transfer
reports failure, yet the instance is registered and the event emitted. -/
theorem C9_transfer_result_unchecked_witness :
    ∃ f' : FactoryState,
      createVestingInstance
          ({ vestings := fun _ => 0, factoryBalance := 100, owner := 7 }) 7
          (quarterlySchedule 25 0) 0 9 false
        = some (f', [((quarterlySchedule 25 0).beneficiary, 9)]) ∧
        f'.vestings (quarterlySchedule 25 0).beneficiary = 9 ∧
        (false = false →
          f'.factoryBalance =
            ({ vestings := fun _ => 0, factoryBalance := 100,
               owner := 7 } : FactoryState).factoryBalance) :=
  C9_transfer_result_unchecked
    ({ vestings := fun _ => 0, factoryBalance := 100, owner := 7 }) 7
    (quarterlySchedule 25 0) 0 9 rfl (by norm_num [quarterlySchedule])
    (by decide) (by decide) (by decide) false

/-- C10: a vesting instance accepts direct token transfers from any sender
at any time (`deposit` is total and always credits the balance), and a
concrete life cycle shows the resulting surplus: after revoke (snapshot 50),
a withdrawal of 10 and an external deposit of 7, the liquid balance 97
strictly exceeds `totalVestingAmount - totalWithdrawn - staked = 90`, and
`refundAndFinalize` sweeps the surplus to the revoker: the revoker refund 57
is the never-vested remainder 50 plus the 7 surplus. -/
theorem C10_direct_deposits_swept_to_revoker :
    (∀ (st : VestingState) (amount : Nat),
        (deposit st amount).balance = st.balance + amount) ∧
    surplusTrace =
      some ({ totalWithdrawn := 10, isRevoked := true,
              revokeTime := 2 * (3 * MONTH) + DAY, vestedBalanceAtRevoke := 50,
              pauseEndTime := 0, balance := 0, locked := 0,
              pendingWithdrawals := [], isAccount := false, finalized := true },
            [(1, 40), (2, 57)]) ∧
    97 > (quarterlySchedule 25 0).totalVestingAmount - 10 - 0 ∧
    57 = ((quarterlySchedule 25 0).totalVestingAmount - 50) + 7 :=
  ⟨fun st amount => rfl, by decide, by decide, by decide⟩

end Vesting
